import Mathlib

/-!
Verification of the MAST scheduler core: a shallow embedding of the
directory-lock utilities (`MAST/utility/dirutil.py`) and the monitor
daemon (`MAST/DAG/mastmon.py`), with theorems settling the frozen
claims about their behaviour.

Conventions of the embedding:
* Python exceptions become `Except MASTError _` results.
* The filesystem facts the code consults are threaded explicitly:
  the lock marker file is an `Option String` (its content is the
  creation-time string), the snapshot pickle is an `Option SnapshotBundle`,
  the working directory is a `String` field of a `World` record.
* Time passes only while the lock-wait loop sleeps; the marker file as
  seen by the polling loop is a function `Nat → Option String` from the
  number of 5-second sleeps elapsed to the marker's state.
* The `DAGScheduler` class is not part of the sources under study; the
  daemon treats it opaquely, so it is modelled by a type parameter `S`
  together with the two operations the daemon invokes (`addjobs` and
  `run`), supplied in an `Env` record.
-/

/-- The repository's `MASTError(classname, errorstr)` exception value. -/
structure MASTError where
  classname : String
  errorstr : String
deriving DecidableEq, Repr

/-! ## Directory lock (`MAST/utility/dirutil.py`) -/

/-- `directory_is_locked(dirname)`: the lock marker file
`dirname + "/mast.write_files.lock"` exists.  `markerAt t` is the marker
file's state after `t` 5-second sleeps have elapsed. -/
def directory_is_locked (markerAt : Nat → Option String) (t : Nat) : Bool :=
  (markerAt t).isSome

/-- The error raised by `wait_to_write` when the lock stays held. -/
def lockTimeoutError (dirname : String) : MASTError :=
  ⟨"utility wait_to_write",
   "Timed out waiting to obtain lock on directory " ++ dirname⟩

/-- The error raised by `unlock_directory` on an unlocked directory. -/
def notLockedError (dirname : String) : MASTError :=
  ⟨"utility unlock_directory",
   "Tried to unlock directory " ++ dirname ++ " which was not locked."⟩

/-- The polling loop of `wait_to_write`:
`while directory_is_locked(dirname) and (waitcount < waitmax): sleep(5); waitcount += 1`.
`gas` is the loop variant `waitmax - waitcount`, so the condition
`waitcount < waitmax` is `gas ≠ 0`; `t` counts the `time.sleep(5)` calls
performed so far.  Returns the final `(waitcount, t)`. -/
def wtwLoop (markerAt : Nat → Option String) (gas waitcount t : Nat) : Nat × Nat :=
  match gas with
  | 0 => (waitcount, t)
  | g + 1 =>
      if directory_is_locked markerAt t then
        wtwLoop markerAt g (waitcount + 1) (t + 1)
      else (waitcount, t)

/-- `wait_to_write(dirname, waitmax)`: clamps `waitmax` below at 1, runs the
polling loop starting from `waitcount = 1`, and raises the timeout error if
the directory is still locked afterwards.  Returns the number of
`time.sleep(5)` calls performed, paired with the outcome. -/
def wait_to_write (markerAt : Nat → Option String) (waitmax : Int)
    (dirname : String) : Nat × Except MASTError Unit :=
  let wm : Int := if waitmax < 1 then 1 else waitmax
  let p := wtwLoop markerAt (wm.toNat - 1) 1 0
  (p.2,
    if directory_is_locked markerAt p.2 then .error (lockTimeoutError dirname)
    else .ok ())

/-- `lock_directory(dirname, waitmax)`: if the marker exists, wait via
`wait_to_write` (propagating its timeout error); then write the marker
file with `time.ctime()` as content.  Returns the number of 5-second
sleeps performed, paired with the outcome; on success the payload is the
content written to the marker (the acquisition time `ctime`). -/
def lock_directory (markerAt : Nat → Option String) (waitmax : Int)
    (dirname ctime : String) : Nat × Except MASTError String :=
  if directory_is_locked markerAt 0 then
    let p := wait_to_write markerAt waitmax dirname
    (p.1, p.2.map (fun _ => ctime))
  else (0, .ok ctime)

/-- `unlock_directory(dirname)`: `os.remove` the marker; a missing marker
raises the not-locked error.  Takes the current marker state, returns the
new marker state on success. -/
def unlock_directory (marker : Option String) (dirname : String) :
    Except MASTError (Option String) :=
  match marker with
  | none => .error (notLockedError dirname)
  | some _ => .ok none

example : wait_to_write (fun _ => some "x") 3 "d" =
    (2, .error (lockTimeoutError "d")) := by rfl

example : wait_to_write (fun _ => some "x") 1 "d" =
    (0, .error (lockTimeoutError "d")) := by rfl

example : wait_to_write (fun _ => some "x") (-5) "d" =
    (0, .error (lockTimeoutError "d")) := by rfl

example : lock_directory (fun _ => none) 1000 "d" "ct" = (0, .ok "ct") := by rfl

example : lock_directory (fun t => if t < 2 then some "x" else none) 10 "d" "ct" =
    (2, .ok "ct") := by rfl

example : unlock_directory (some "x") "d" = .ok none := by rfl

/-! ## Monitor daemon (`MAST/DAG/mastmon.py`)

`S` is the type of `DAGScheduler` states (its source is outside the files
under study, so the daemon's two uses of it are environment parameters). -/

/-- The `var_dict` pickled by `MASTmon._save` and read by `MASTmon._load`:
a dictionary whose possible keys are `registered_dir`, `scheduler` and
`version`; a `none` field is a key absent from the dictionary. -/
structure SnapshotBundle (S : Type) where
  registered_dir : Option (Finset String)
  scheduler : Option S
  version : Option ℚ
deriving DecidableEq

/-- The mutable attributes of a `MASTmon` instance that the claims are
about: `self.registered_dir`, `self.scheduler` and `self.version`. -/
structure DaemonState (S : Type) where
  registered : Finset String
  scheduler : S
  version : ℚ
deriving DecidableEq

/-- The filesystem/process facts `MASTmon.run` reads and writes: the
current working directory, the lock marker of the home directory, whether
the archive directory exists, and the snapshot pickle file
(`mastmon_info.pickle`; `none` = file absent). -/
structure World (S : Type) where
  cwd : String
  lockMarker : Option String
  archiveExists : Bool
  snapshot : Option (SnapshotBundle S)
deriving DecidableEq

/-- The environment of a `MASTmon.run` call: configuration
(`self.home`, `self._ARCHIVE`), the current `time.ctime()` string, the
per-iteration directory listing `os.walk('.').next()[1]` of the home
directory, and the behaviour of the opaque `DAGScheduler`:
`addjobs` is the state change of `scheduler.addjobs(...)` for one session
directory, `addjobsOk` tells whether registering that session succeeds
(missing `mast.pickle` / `addjobs` raising), and `schedRun` is
`scheduler.run(niter=1)` returning the new scheduler state and the set of
completed session names. -/
structure Env (S : Type) where
  home : String
  archive : String
  ctime : String
  subdirs : Nat → List String
  addjobs : S → String → S
  addjobsOk : String → Bool
  schedRun : S → S × Finset String

/-- `MASTmon.__init__`: empty registered set, fresh scheduler state `s0`,
version `0.1`. -/
def MASTmon_init {S : Type} (s0 : S) : DaemonState S :=
  ⟨∅, s0, mkRat 1 10⟩

/-- Modelled from the spec: `PickleManager.save` (its source file is not
among the files under study) "serializes an arbitrary structured bundle
… to `path`.  Overwrites any prior snapshot." — modelled as replacing the
stored snapshot, ignoring the prior contents. -/
def pm_save {S : Type} (bundle : SnapshotBundle S)
    (_prior : Option (SnapshotBundle S)) : Option (SnapshotBundle S) :=
  some bundle

/-- The `MASTError` raised by `MASTmon._load` on a version mismatch. -/
def versionMismatchError : MASTError :=
  ⟨"MASTmon",
   "Error: mastmon_info.pickle is a different version than mastmon"⟩

/-- The `MASTError` raised by `MASTmon.add_sessions` when registering a
session fails. -/
def addSessionsError : MASTError :=
  ⟨"MASTmon", "Error adding jobs to scheduler."⟩

/-- The `MASTError` raised by `MASTmon.run` when moving to the home
directory fails. -/
def chdirHomeError (home : String) : MASTError :=
  ⟨"MASTmon", "Error: Failed to move to MASTmon home " ++ home⟩

/-- `MASTmon._save`: build `var_dict` with exactly the keys
`registered_dir`, `scheduler`, `version` from the current attributes and
`pm.save` it over the snapshot file. -/
def mastmon_save {S : Type} (st : DaemonState S)
    (prior : Option (SnapshotBundle S)) : Option (SnapshotBundle S) :=
  pm_save ⟨some st.registered, some st.scheduler, some st.version⟩ prior

/-- `MASTmon._load`: if the snapshot file exists, read `var_dict`
(`PickleManager.load_variable`, modelled from the spec as returning the
stored bundle); raise on a present-but-different `version` field; then
adopt the `registered_dir` and `scheduler` fields that are present.  An
absent file leaves the state untouched. -/
def mastmon_load {S : Type} (st : DaemonState S)
    (snap : Option (SnapshotBundle S)) : Except MASTError (DaemonState S) :=
  match snap with
  | none => .ok st
  | some b =>
      let mismatch : Bool :=
        match b.version with
        | some v => decide (v ≠ st.version)
        | none => false
      if mismatch then .error versionMismatchError
      else
        let st1 :=
          match b.registered_dir with
          | some r => {st with registered := r}
          | none => st
        let st2 :=
          match b.scheduler with
          | some s => {st1 with scheduler := s}
          | none => st1
        .ok st2

/-- The per-directory loop of `MASTmon.add_sessions`: for each session
directory `d`, `os.chdir(d)`, then move stray files / check
`mast.pickle` / `scheduler.addjobs` — failure anywhere in that block
(modelled by `env.addjobsOk d = false`) raises with the working directory
still at `d`; on success `os.chdir(home)` and continue.  Returns the
scheduler state threaded through `addjobs`. -/
def add_sessions_loop {S : Type} (env : Env S) (dirs : List String)
    (sched : S) (w : World S) : Except MASTError S × World S :=
  match dirs with
  | [] => (.ok sched, w)
  | d :: rest =>
      let w1 : World S := {w with cwd := d}
      if env.addjobsOk d then
        add_sessions_loop env rest (env.addjobs sched d) {w1 with cwd := env.home}
      else (.error addSessionsError, w1)

/-- `MASTmon.add_sessions(new_session_dirs)`: run the per-directory loop;
only after the whole loop succeeds is
`self.registered_dir = self.registered_dir.union(new_session_dirs)`
executed. -/
def add_sessions {S : Type} (env : Env S) (st : DaemonState S)
    (dirs : List String) (w : World S) :
    Except MASTError (DaemonState S) × World S :=
  match add_sessions_loop env dirs st.scheduler w with
  | (.ok sched, w') =>
      (.ok {st with scheduler := sched,
                    registered := st.registered ∪ dirs.toFinset}, w')
  | (.error e, w') => (.error e, w')

/-- The candidate session directories of one iteration:
`session_dirs.remove(self._ARCHIVE)` if the archive is listed
(`List.erase` removes the first occurrence, as Python `list.remove`
does), else the listing unchanged. -/
def candidate_dirs (archive : String) (session_dirs : List String) :
    List String :=
  if archive ∈ session_dirs then session_dirs.erase archive
  else session_dirs

/-- The archive-existence update of one iteration: when the archive is
not among the listed subdirectories, `os.makedirs(self._ARCHIVE)` is run
unless it already exists, so afterwards it exists in either case. -/
def ensure_archive (archive : String) (session_dirs : List String)
    (archiveExists : Bool) : Bool :=
  if archive ∈ session_dirs then archiveExists else true

/-- `set(session_dirs) - self.registered_dir`: the newly-seen session
directories of one iteration (kept as a list; the daemon's results do
not depend on the iteration order of the Python set). -/
def newly_seen (archive : String) (session_dirs : List String)
    (registered : Finset String) : List String :=
  (candidate_dirs archive session_dirs).filter (fun d => decide (d ∉ registered))

/-- One iteration of the `while True:` loop in `MASTmon.run` (without the
break conditions): list subdirectories, drop/create the archive
directory, register the newly-seen directories, run the scheduler one
tick, drop the completed session names from `registered_dir`, and
`_save`. -/
def run_iter {S : Type} (env : Env S) (st : DaemonState S) (w : World S)
    (k : Nat) : Except MASTError (DaemonState S) × World S :=
  let sds := env.subdirs k
  let w := {w with archiveExists := ensure_archive env.archive sds w.archiveExists}
  let newdirs := newly_seen env.archive sds st.registered
  match add_sessions env st newdirs w with
  | (.error e, w') => (.error e, w')
  | (.ok st1, w') =>
      let pr := env.schedRun st1.scheduler
      let st2 : DaemonState S :=
        {st1 with scheduler := pr.1, registered := st1.registered \ pr.2}
      (.ok st2, {w' with snapshot := mastmon_save st2 w'.snapshot})

/-- The `stopcond` test at the bottom of the loop:
`stopcond.upper() == 'NOSESSION' and len(self.registered_dir) == 0`. -/
def stopcheck {S : Type} (stopcond : Option String) (st : DaemonState S) :
    Bool :=
  match stopcond with
  | some s => s.toUpper == "NOSESSION" && st.registered.card == 0
  | none => false

/-- The `while True:` loop of `MASTmon.run` for a bounded iteration count
`niter` (a run with `niter=None` that terminates via `stopcond` behaves
like a run with any sufficiently large bound, since the loop body and the
break tests are identical).  `k` is the global iteration index feeding
the per-iteration directory listing. -/
def run_loop {S : Type} (env : Env S) (stopcond : Option String)
    (niter : Nat) (st : DaemonState S) (w : World S) (k : Nat) :
    Except MASTError (DaemonState S) × World S :=
  match niter with
  | 0 => (.ok st, w)
  | n + 1 =>
      match run_iter env st w k with
      | (.error e, w') => (.error e, w')
      | (.ok st', w') =>
          if stopcheck stopcond st' then (.ok st', w')
          else run_loop env stopcond n st' w' (k + 1)

/-- `MASTmon.run(niter, verbose, stopcond, interval)`: remember
`os.getcwd()`; `os.chdir(self.home)` (restoring on failure and raising);
`dirutil.lock_directory(self.home, 1)`; `self._load()`; the iteration
loop; then `dirutil.unlock_directory(self.home)` and `os.chdir(curdir)`
— the last two run only when control reaches the end of `run`, there is
no `finally` block.  The pair returned is the outcome together with the
world at return or at the uncaught raise. -/
def MASTmon_run {S : Type} (env : Env S) (st : DaemonState S)
    (w0 : World S) (chdirOk : Bool) (niter : Nat)
    (stopcond : Option String) :
    Except MASTError (DaemonState S) × World S :=
  let curdir := w0.cwd
  if chdirOk then
    let w : World S := {w0 with cwd := env.home}
    match lock_directory (fun _ => w.lockMarker) 1 env.home env.ctime with
    | (_, .error e) => (.error e, w)
    | (_, .ok c) =>
        let w : World S := {w with lockMarker := some c}
        match mastmon_load st w.snapshot with
        | .error e => (.error e, w)
        | .ok st1 =>
            match run_loop env stopcond niter st1 w 0 with
            | (.error e, w') => (.error e, w')
            | (.ok st2, w') =>
                match unlock_directory w'.lockMarker env.home with
                | .error e => (.error e, w')
                | .ok m => (.ok st2, {w' with lockMarker := m, cwd := curdir})
  else (.error (chdirHomeError env.home), {w0 with cwd := curdir})

/-! ## Lemmas about the lock polling loop -/

/-- On a directory whose marker never goes away, the polling loop runs its
gas out, sleeping once per unit of gas. -/
theorem wtwLoop_locked (markerAt : Nat → Option String)
    (h : ∀ t, directory_is_locked markerAt t = true) :
    ∀ gas waitcount t,
      wtwLoop markerAt gas waitcount t = (waitcount + gas, t + gas) := by
  intro gas
  induction gas with
  | zero => intro wc t; simp [wtwLoop]
  | succ g ih =>
      intro wc t
      simp only [wtwLoop, h t, if_true, ih, Prod.mk.injEq]
      omega

/-! ## Lemmas about the daemon's iteration -/

/-- The session-registration loop only changes the working directory of
the world: marker, archive and snapshot are untouched; on success the
working directory ends at its starting point or at the daemon home, on
failure at the offending session directory. -/
theorem asl_world {S : Type} (env : Env S) :
    ∀ (dirs : List String) (s : S) (w : World S),
      ((add_sessions_loop env dirs s w).2).lockMarker = w.lockMarker ∧
      ((add_sessions_loop env dirs s w).2).archiveExists = w.archiveExists ∧
      ((add_sessions_loop env dirs s w).2).snapshot = w.snapshot ∧
      (∀ s', (add_sessions_loop env dirs s w).1 = .ok s' →
        ((add_sessions_loop env dirs s w).2).cwd = w.cwd ∨
        ((add_sessions_loop env dirs s w).2).cwd = env.home) ∧
      (∀ e, (add_sessions_loop env dirs s w).1 = .error e →
        ((add_sessions_loop env dirs s w).2).cwd ∈ dirs) := by
  intro dirs
  induction dirs with
  | nil =>
      intro s w
      refine ⟨rfl, rfl, rfl, fun s' _ => Or.inl rfl, fun e he => ?_⟩
      simp [add_sessions_loop] at he
  | cons d rest ih =>
      intro s w
      by_cases hd : env.addjobsOk d
      · obtain ⟨h1, h2, h3, h4, h5⟩ :=
          ih (env.addjobs s d) {w with cwd := env.home}
        simp only [add_sessions_loop, hd, if_true]
        refine ⟨h1, h2, h3, fun s' hs' => ?_, fun e he => ?_⟩
        · rcases h4 s' hs' with h | h
          · exact Or.inr h
          · exact Or.inr h
        · exact List.mem_cons_of_mem d (h5 e he)
      · simp only [add_sessions_loop, hd, if_false]
        refine ⟨rfl, rfl, rfl, fun s' hs' => ?_, fun e _ => ?_⟩
        · simp at hs'
        · exact List.mem_cons_self d rest

/-- When every newly-seen directory registers successfully, the
registration loop returns the scheduler state folded through `addjobs`. -/
theorem asl_ok_of_all {S : Type} (env : Env S) :
    ∀ (dirs : List String), (∀ d ∈ dirs, env.addjobsOk d = true) →
      ∀ (s : S) (w : World S),
        (add_sessions_loop env dirs s w).1 = .ok (dirs.foldl env.addjobs s) := by
  intro dirs
  induction dirs with
  | nil => intro _ s w; rfl
  | cons d rest ih =>
      intro h s w
      have hd : env.addjobsOk d = true := h d (List.mem_cons_self d rest)
      simp only [add_sessions_loop, hd, if_true, List.foldl_cons]
      exact ih (fun x hx => h x (List.mem_cons_of_mem d hx)) (env.addjobs s d) _

/-- `add_sessions` returns the world of its registration loop. -/
theorem add_sessions_snd {S : Type} (env : Env S) (st : DaemonState S)
    (dirs : List String) (w : World S) :
    (add_sessions env st dirs w).2 =
      (add_sessions_loop env dirs st.scheduler w).2 := by
  rcases hE : add_sessions_loop env dirs st.scheduler w with ⟨res, w'⟩
  cases res <;> simp [add_sessions, hE]

/-- When every directory registers successfully, `add_sessions` extends
the registered set by the given directories and threads the scheduler
through `addjobs`. -/
theorem add_sessions_ok {S : Type} (env : Env S) (st : DaemonState S)
    (dirs : List String) (w : World S)
    (hok : ∀ d ∈ dirs, env.addjobsOk d = true) :
    (add_sessions env st dirs w).1 =
      .ok {st with scheduler := dirs.foldl env.addjobs st.scheduler,
                   registered := st.registered ∪ dirs.toFinset} := by
  have h := asl_ok_of_all env dirs hok st.scheduler w
  rcases hE : add_sessions_loop env dirs st.scheduler w with ⟨res, w'⟩
  rw [hE] at h
  simp only at h
  subst h
  simp [add_sessions, hE]

/-- Every newly-seen directory comes from the iteration's listing. -/
theorem newly_seen_subset (archive : String) (sds : List String)
    (reg : Finset String) :
    ∀ d ∈ newly_seen archive sds reg, d ∈ sds := by
  intro d hd
  have h1 : d ∈ candidate_dirs archive sds := List.mem_of_mem_filter hd
  unfold candidate_dirs at h1
  by_cases h : archive ∈ sds
  · rw [if_pos h] at h1
    exact List.mem_of_mem_erase h1
  · rwa [if_neg h] at h1

/-- The world after one daemon iteration: the lock marker is untouched,
the archive directory exists afterwards whenever the branch creating it
ran, and the working directory ends at its starting point or the home on
success, or at a directory of the iteration's listing on failure. -/
theorem run_iter_world {S : Type} (env : Env S) (st : DaemonState S)
    (w : World S) (k : Nat) :
    ((run_iter env st w k).2).lockMarker = w.lockMarker ∧
    ((run_iter env st w k).2).archiveExists =
      ensure_archive env.archive (env.subdirs k) w.archiveExists ∧
    (∀ st', (run_iter env st w k).1 = .ok st' →
      ((run_iter env st w k).2).cwd = w.cwd ∨
      ((run_iter env st w k).2).cwd = env.home) ∧
    (∀ e, (run_iter env st w k).1 = .error e →
      ((run_iter env st w k).2).cwd ∈ env.subdirs k) := by
  obtain ⟨h1, h2, h3, h4, h5⟩ := asl_world env
    (newly_seen env.archive (env.subdirs k) st.registered) st.scheduler
    {w with archiveExists := ensure_archive env.archive (env.subdirs k) w.archiveExists}
  rcases hE : add_sessions_loop env
      (newly_seen env.archive (env.subdirs k) st.registered) st.scheduler
      {w with archiveExists := ensure_archive env.archive (env.subdirs k) w.archiveExists}
    with ⟨res, w'⟩
  rw [hE] at h1 h2 h3 h4 h5
  simp only at h1 h2 h3 h4 h5
  cases res with
  | ok sched =>
      refine ⟨by simp [run_iter, add_sessions, hE, h1],
              by simp [run_iter, add_sessions, hE, h2],
              fun st' _ => ?_, fun e he => ?_⟩
      · simpa [run_iter, add_sessions, hE] using h4 sched rfl
      · simp [run_iter, add_sessions, hE] at he
  | error e' =>
      refine ⟨by simp [run_iter, add_sessions, hE, h1],
              by simp [run_iter, add_sessions, hE, h2],
              fun st' hst' => ?_, fun e he => ?_⟩
      · simp [run_iter, add_sessions, hE] at hst'
      · have := h5 e' rfl
        have hsub := newly_seen_subset env.archive (env.subdirs k) st.registered
        simp only [run_iter, add_sessions, hE]
        exact hsub _ this

/-- A successful iteration's registered set is the prior set united with
the newly-seen directories, minus some set of completed session names
(namely those the scheduler reported). -/
theorem run_iter_ok_shape {S : Type} (env : Env S) (st : DaemonState S)
    (w : World S) (k : Nat) :
    ∀ st', (run_iter env st w k).1 = .ok st' →
      ∃ cs : Finset String,
        st'.registered =
          (st.registered ∪
            (newly_seen env.archive (env.subdirs k) st.registered).toFinset) \ cs := by
  intro st' h
  rcases hE : add_sessions_loop env
      (newly_seen env.archive (env.subdirs k) st.registered) st.scheduler
      {w with archiveExists := ensure_archive env.archive (env.subdirs k) w.archiveExists}
    with ⟨res, w'⟩
  cases res with
  | error e => simp [run_iter, add_sessions, hE] at h
  | ok sched =>
      simp only [run_iter, add_sessions, hE] at h
      refine ⟨(env.schedRun sched).2, ?_⟩
      obtain rfl :
          ({ registered :=
              (st.registered ∪
                (newly_seen env.archive (env.subdirs k) st.registered).toFinset) \
                (env.schedRun sched).2,
             scheduler := (env.schedRun sched).1,
             version := st.version } : DaemonState S) = st' := by
        simpa using h
      rfl

/-- A successful iteration stores a snapshot built from exactly the three
attributes of the state at the end of that iteration. -/
theorem run_iter_save {S : Type} (env : Env S) (st : DaemonState S)
    (w : World S) (k : Nat) :
    ∀ st', (run_iter env st w k).1 = .ok st' →
      ((run_iter env st w k).2).snapshot =
        some ⟨some st'.registered, some st'.scheduler, some st'.version⟩ := by
  intro st' h
  rcases hE : add_sessions_loop env
      (newly_seen env.archive (env.subdirs k) st.registered) st.scheduler
      {w with archiveExists := ensure_archive env.archive (env.subdirs k) w.archiveExists}
    with ⟨res, w'⟩
  cases res with
  | error e => simp [run_iter, add_sessions, hE] at h
  | ok sched =>
      simp only [run_iter, add_sessions, hE] at h ⊢
      obtain rfl :
          ({ registered :=
              (st.registered ∪
                (newly_seen env.archive (env.subdirs k) st.registered).toFinset) \
                (env.schedRun sched).2,
             scheduler := (env.schedRun sched).1,
             version := st.version } : DaemonState S) = st' := by
        simpa using h
      simp [mastmon_save, pm_save]

/-- Across the whole iteration loop the lock marker is never touched, and
the working directory stays at the daemon home except when an iteration
raises inside a session directory of some listing. -/
theorem run_loop_world {S : Type} (env : Env S) (sc : Option String) :
    ∀ (n : Nat) (st : DaemonState S) (w : World S) (k : Nat),
      w.cwd = env.home →
      ((run_loop env sc n st w k).2).lockMarker = w.lockMarker ∧
      (∀ st', (run_loop env sc n st w k).1 = .ok st' →
        ((run_loop env sc n st w k).2).cwd = env.home) ∧
      (∀ e, (run_loop env sc n st w k).1 = .error e →
        ∃ j d, d ∈ env.subdirs j ∧ ((run_loop env sc n st w k).2).cwd = d) := by
  intro n
  induction n with
  | zero =>
      intro st w k hw
      exact ⟨rfl, fun _ _ => hw, fun e he => by simp [run_loop] at he⟩
  | succ m ih =>
      intro st w k hw
      obtain ⟨g1, g2, g3, g4⟩ := run_iter_world env st w k
      rcases hE : run_iter env st w k with ⟨res, w'⟩
      rw [hE] at g1 g2 g3 g4
      simp only at g1 g2 g3 g4
      cases res with
      | error e =>
          refine ⟨by simp [run_loop, hE, g1], fun st' hst' => ?_, fun e' he' => ?_⟩
          · simp [run_loop, hE] at hst'
          · exact ⟨k, w'.cwd, g4 e rfl, by simp [run_loop, hE]⟩
      | ok st1 =>
          have hw' : w'.cwd = env.home := by
            rcases g3 st1 rfl with h | h
            · rw [h, hw]
            · exact h
          by_cases hstop : stopcheck sc st1
          · refine ⟨by simp [run_loop, hE, hstop, g1], fun st' _ => ?_,
              fun e' he' => ?_⟩
            · simp [run_loop, hE, hstop, hw']
            · simp [run_loop, hE, hstop] at he'
          · obtain ⟨i1, i2, i3⟩ := ih st1 w' (k + 1) hw'
            refine ⟨?_, fun st' hst' => ?_, fun e' he' => ?_⟩
            · rw [show ((run_loop env sc (m + 1) st w k).2).lockMarker =
                  ((run_loop env sc m st1 w' (k + 1)).2).lockMarker by
                simp [run_loop, hE, hstop]]
              rw [i1, g1]
            · rw [show (run_loop env sc (m + 1) st w k).2 =
                  (run_loop env sc m st1 w' (k + 1)).2 by
                simp [run_loop, hE, hstop]]
              refine i2 st' ?_
              rw [show (run_loop env sc m st1 w' (k + 1)).1 =
                  (run_loop env sc (m + 1) st w k).1 by
                simp [run_loop, hE, hstop]]
              exact hst'
            · rw [show (run_loop env sc (m + 1) st w k).2 =
                  (run_loop env sc m st1 w' (k + 1)).2 by
                simp [run_loop, hE, hstop]]
              refine i3 e' ?_
              rw [show (run_loop env sc m st1 w' (k + 1)).1 =
                  (run_loop env sc (m + 1) st w k).1 by
                simp [run_loop, hE, hstop]]
              exact he'

/-- C1: for every directory and every bound `waitmax`, if the lock marker
exists and is never removed, `lock_directory` performs at most `waitmax`
5-second sleeps and then fails with the lock-timeout `MASTError`; if no
marker exists, it immediately creates the marker recording the
acquisition time and returns. -/
theorem lock_directory_spec (markerAt : Nat → Option String) (waitmax : Int)
    (dirname ctime : String) :
    ((∀ t, directory_is_locked markerAt t = true) →
        (lock_directory markerAt waitmax dirname ctime).2 =
          .error (lockTimeoutError dirname) ∧
        (lock_directory markerAt waitmax dirname ctime).1 ≤ waitmax.toNat) ∧
    (directory_is_locked markerAt 0 = false →
        lock_directory markerAt waitmax dirname ctime = (0, .ok ctime)) := by
  constructor
  · intro h
    have hl := wtwLoop_locked markerAt h
    simp only [lock_directory, wait_to_write, h 0, if_true, hl]
    simp only [Nat.zero_add, h, if_true, Except.map_error, and_true, true_and]
    constructor
    · rfl
    · by_cases hw : waitmax < 1
      · simp only [hw, if_true]
        omega
      · simp only [hw, if_false]
        omega
  · intro h
    simp [lock_directory, h]

/-- Witness for C1: with the marker held forever and `waitmax = 3`,
acquisition times out with at most 3 sleeps; with no marker, acquisition
returns at once with the timestamp written. -/
theorem lock_directory_spec_witness :
    ((lock_directory (fun _ => some "held") 3 "d" "ct").2 =
        .error (lockTimeoutError "d") ∧
      (lock_directory (fun _ => some "held") 3 "d" "ct").1 ≤ (3 : Int).toNat) ∧
    lock_directory (fun _ => none) 3 "d" "ct" = (0, .ok "ct") :=
  ⟨(lock_directory_spec (fun _ => some "held") 3 "d" "ct").1 (fun _ => rfl),
   (lock_directory_spec (fun _ => none) 3 "d" "ct").2 rfl⟩

/-- C6: on a directory with no lock marker, `unlock_directory` fails with
the not-locked `MASTError`; with a marker present it removes it, leaving
the directory unlocked. -/
theorem unlock_directory_spec (dirname : String) :
    unlock_directory none dirname = .error (notLockedError dirname) ∧
    (∀ ctime : String, unlock_directory (some ctime) dirname = .ok none) ∧
    directory_is_locked (fun _ => (none : Option String)) 0 = false :=
  ⟨rfl, fun _ => rfl, rfl⟩

/-- C10: `wait_to_write` clamps every `waitmax < 1` to 1, and
`lock_directory` with a bound of 1 or less on a permanently locked
directory raises the timeout error after zero sleeps. -/
theorem wait_to_write_clamp_spec (markerAt : Nat → Option String)
    (waitmax : Int) (dirname ctime : String) :
    (waitmax < 1 →
      wait_to_write markerAt waitmax dirname = wait_to_write markerAt 1 dirname) ∧
    ((∀ t, directory_is_locked markerAt t = true) → waitmax ≤ 1 →
      lock_directory markerAt waitmax dirname ctime =
        (0, .error (lockTimeoutError dirname))) := by
  constructor
  · intro h
    simp [wait_to_write, h]
  · intro h hw
    have h1 : (if waitmax < 1 then (1 : Int) else waitmax).toNat - 1 = 0 := by
      by_cases hlt : waitmax < 1
      · simp [hlt]
      · simp only [hlt, if_false]
        omega
    simp [lock_directory, wait_to_write, h 0, h1, wtwLoop]
    rfl

/-- Witness for C10 at `waitmax = 0` on a permanently held lock. -/
theorem wait_to_write_clamp_spec_witness :
    wait_to_write (fun _ => some "m") 0 "d" =
      wait_to_write (fun _ => some "m") 1 "d" ∧
    lock_directory (fun _ => some "m") 0 "d" "ct" =
      (0, .error (lockTimeoutError "d")) :=
  ⟨(wait_to_write_clamp_spec (fun _ => some "m") 0 "d" "ct").1 (by decide),
   (wait_to_write_clamp_spec (fun _ => some "m") 0 "d" "ct").2 (fun _ => rfl)
     (by decide)⟩

/-- Environment used to exercise `MASTmon.run` on its error paths: home
directory "home", archive "ARCHIVE", an empty per-iteration listing, and
a scheduler whose tick completes nothing. -/
def c2env : Env Unit :=
  ⟨"home", "ARCHIVE", "ct", fun _ => [], fun s _ => s, fun _ => true,
   fun s => (s, ∅)⟩

/-- A start world for `MASTmon.run` whose snapshot carries version 2,
different from the daemon's 0.1. -/
def c2w : World Unit :=
  ⟨"orig", none, true, some ⟨none, none, some 2⟩⟩

/-- C2 counterexample: an invocation of `MASTmon.run` that acquires the
home-directory lock and then fails loading the snapshot (version
mismatch) returns with the lock marker still present and with the
working directory still at the home directory, not restored to the
original "orig" — refuting the claim that the lock is released and the
working directory restored even when the run exits via an error. -/
theorem mastmon_run_release_counterexample :
    (MASTmon_run c2env (MASTmon_init ()) c2w true 1 none).1 =
      .error versionMismatchError ∧
    ((MASTmon_run c2env (MASTmon_init ()) c2w true 1 none).2).lockMarker =
      some "ct" ∧
    ((MASTmon_run c2env (MASTmon_init ()) c2w true 1 none).2).cwd = "home" ∧
    c2w.cwd = "orig" :=
  ⟨rfl, rfl, rfl, rfl⟩

/-- C2 (amended): `MASTmon.run` releases the home-directory lock and
restores the original working directory only on a normal return.  When
the body raises after the initial `os.chdir` succeeded (lock timeout,
snapshot-load failure, or an error inside the iteration loop), there is
no `finally`: the error propagates with a lock marker still present at
the home directory and with the working directory left at the home (or a
session) directory, not restored.  (A failure of the initial `os.chdir`
itself restores the directory before raising.) -/
theorem mastmon_run_release_amended {S : Type} (env : Env S)
    (st : DaemonState S) (w0 : World S) (niter : Nat)
    (stopcond : Option String)
    (hhome : env.home ≠ w0.cwd)
    (hsub : ∀ k d, d ∈ env.subdirs k → d ≠ w0.cwd) :
    (∀ st' w', MASTmon_run env st w0 true niter stopcond = (.ok st', w') →
      w'.lockMarker = none ∧ w'.cwd = w0.cwd) ∧
    (∀ e w', MASTmon_run env st w0 true niter stopcond = (.error e, w') →
      w'.lockMarker.isSome = true ∧ w'.cwd ≠ w0.cwd) := by
  cases hM : w0.lockMarker with
  | some c =>
      have hR : MASTmon_run env st w0 true niter stopcond =
          (.error (lockTimeoutError env.home), {w0 with cwd := env.home}) := by
        simp [MASTmon_run, hM, lock_directory, wait_to_write, wtwLoop,
          directory_is_locked, Except.map]
      refine ⟨fun st' w' h => ?_, fun e w' h => ?_⟩
      · rw [hR] at h
        simp at h
      · rw [hR] at h
        have h2 := congrArg Prod.snd h
        simp only at h2
        subst h2
        exact ⟨by simp [hM], hhome⟩
  | none =>
      have hlock : lock_directory
          (fun _ => ({w0 with cwd := env.home} : World S).lockMarker) 1
          env.home env.ctime = (0, .ok env.ctime) := by
        simp [hM, lock_directory, directory_is_locked]
      cases hLd : mastmon_load st w0.snapshot with
      | error e0 =>
          have hR : MASTmon_run env st w0 true niter stopcond =
              (.error e0,
               {w0 with cwd := env.home, lockMarker := some env.ctime}) := by
            simp [MASTmon_run, hlock, hLd]
          refine ⟨fun st' w' h => ?_, fun e w' h => ?_⟩
          · rw [hR] at h
            simp at h
          · rw [hR] at h
            have h2 := congrArg Prod.snd h
            simp only at h2
            subst h2
            exact ⟨rfl, hhome⟩
      | ok st1 =>
          obtain ⟨l1, l2, l3⟩ := run_loop_world env stopcond niter st1
            {w0 with cwd := env.home, lockMarker := some env.ctime} 0 rfl
          rcases hRL : run_loop env stopcond niter st1
              {w0 with cwd := env.home, lockMarker := some env.ctime} 0
            with ⟨res, w2⟩
          rw [hRL] at l1 l2 l3
          simp only at l1 l2 l3
          cases res with
          | error e =>
              have hR : MASTmon_run env st w0 true niter stopcond =
                  (.error e, w2) := by
                simp [MASTmon_run, hlock, hLd, hRL]
              refine ⟨fun st' w' h => ?_, fun e' w' h => ?_⟩
              · rw [hR] at h
                simp at h
              · rw [hR] at h
                have h2 := congrArg Prod.snd h
                simp only at h2
                subst h2
                refine ⟨by simp [l1], ?_⟩
                obtain ⟨j, d, hdj, hcwd⟩ := l3 e rfl
                rw [hcwd]
                exact hsub j d hdj
          | ok st2 =>
              have hmark : w2.lockMarker = some env.ctime := l1
              have hR : MASTmon_run env st w0 true niter stopcond =
                  (.ok st2, {w2 with lockMarker := none, cwd := w0.cwd}) := by
                simp [MASTmon_run, hlock, hLd, hRL, hmark, unlock_directory]
              refine ⟨fun st' w' h => ?_, fun e' w' h => ?_⟩
              · rw [hR] at h
                have h2 := congrArg Prod.snd h
                simp only at h2
                subst h2
                exact ⟨rfl, rfl⟩
              · rw [hR] at h
                simp at h

/-- A start world for a normally returning `MASTmon.run`: original
directory "orig", no lock held, no snapshot. -/
def c2okw : World Unit := ⟨"orig", none, true, none⟩

/-- Witness for the amended C2: a run that returns normally ends with no
lock marker and with the working directory restored to "orig". -/
theorem mastmon_run_release_amended_witness :
    ((MASTmon_run c2env (MASTmon_init ()) c2okw true 1 none).2).lockMarker =
      none ∧
    ((MASTmon_run c2env (MASTmon_init ()) c2okw true 1 none).2).cwd =
      c2okw.cwd :=
  (mastmon_run_release_amended c2env (MASTmon_init ()) c2okw 1 none
      (by decide) (fun k d hd => by simp [c2env] at hd)).1
    ⟨∅, (), mkRat 1 10⟩
    ((MASTmon_run c2env (MASTmon_init ()) c2okw true 1 none).2) rfl

/-- C3: a snapshot bundle whose version field is present and differs from
the daemon's version makes `_load` raise the version-mismatch error and
adopt nothing: no state with adopted fields is ever returned, so the
caller's registered set and scheduler are untouched. -/
theorem mastmon_load_version_mismatch {S : Type} (st : DaemonState S)
    (b : SnapshotBundle S) (v : ℚ) (hv : b.version = some v)
    (hne : v ≠ st.version) :
    mastmon_load st (some b) = .error versionMismatchError ∧
    ∀ st', mastmon_load st (some b) ≠ .ok st' := by
  have h1 : mastmon_load st (some b) = .error versionMismatchError := by
    simp [mastmon_load, hv, hne]
  exact ⟨h1, fun st' hc => by rw [h1] at hc; cases hc⟩

/-- Witness for C3: a bundle with version 2 is rejected by a daemon at
version 0.1. -/
theorem mastmon_load_version_mismatch_witness :
    mastmon_load (MASTmon_init ())
      (some (⟨none, none, some 2⟩ : SnapshotBundle Unit)) =
      .error versionMismatchError :=
  (mastmon_load_version_mismatch (MASTmon_init ()) ⟨none, none, some 2⟩ 2
    rfl (by decide)).1

/-- C7: with no snapshot file present, `_load` returns without error and
leaves the daemon's state unchanged; in particular a freshly constructed
daemon keeps its empty registered set and fresh scheduler. -/
theorem mastmon_load_no_snapshot {S : Type} (s0 : S) :
    (∀ st : DaemonState S, mastmon_load st none = .ok st) ∧
    mastmon_load (MASTmon_init s0) none = .ok ⟨∅, s0, mkRat 1 10⟩ :=
  ⟨fun _ => rfl, rfl⟩

/-- C9: a bundle with no version field entirely skips the mismatch check,
and whatever registered_dir and scheduler fields are present are still
adopted into the daemon's state. -/
theorem mastmon_load_missing_version {S : Type} (st : DaemonState S)
    (b : SnapshotBundle S) (hb : b.version = none) :
    mastmon_load st (some b) =
      .ok { registered := b.registered_dir.getD st.registered,
            scheduler := b.scheduler.getD st.scheduler,
            version := st.version } := by
  rcases b with ⟨r, s, v⟩
  simp only at hb
  subst hb
  cases r <;> cases s <;> simp [mastmon_load]

/-- Witness for C9: a version-less bundle carrying a registered set and a
scheduler is adopted wholesale. -/
theorem mastmon_load_missing_version_witness :
    mastmon_load (MASTmon_init ())
      (some (⟨some {"a"}, some (), none⟩ : SnapshotBundle Unit)) =
      .ok { registered :=
              (some ({"a"} : Finset String)).getD (MASTmon_init ()).registered,
            scheduler := (some ()).getD (MASTmon_init ()).scheduler,
            version := (MASTmon_init () : DaemonState Unit).version } :=
  mastmon_load_missing_version (MASTmon_init ()) ⟨some {"a"}, some (), none⟩ rfl

/-- C4: the candidate session directories of an iteration are exactly the
listed immediate subdirectories with the archive directory excluded; the
archive directory is created when missing, and it never enters the
registered set. -/
theorem mastmon_candidate_dirs_spec {S : Type} (env : Env S)
    (st : DaemonState S) (w : World S) (k : Nat)
    (hnd : (env.subdirs k).Nodup) :
    (∀ d, d ∈ candidate_dirs env.archive (env.subdirs k) ↔
      (d ∈ env.subdirs k ∧ d ≠ env.archive)) ∧
    (env.archive ∉ env.subdirs k →
      ((run_iter env st w k).2).archiveExists = true) ∧
    env.archive ∉ candidate_dirs env.archive (env.subdirs k) ∧
    (env.archive ∉ st.registered →
      ∀ st', (run_iter env st w k).1 = .ok st' →
        env.archive ∉ st'.registered) := by
  have hmem : ∀ d, d ∈ candidate_dirs env.archive (env.subdirs k) ↔
      (d ∈ env.subdirs k ∧ d ≠ env.archive) := by
    intro d
    unfold candidate_dirs
    by_cases h : env.archive ∈ env.subdirs k
    · rw [if_pos h, hnd.mem_erase_iff]
      exact ⟨fun hp => ⟨hp.2, hp.1⟩, fun hp => ⟨hp.2, hp.1⟩⟩
    · rw [if_neg h]
      exact ⟨fun hd => ⟨hd, fun heq => h (heq ▸ hd)⟩, fun hd => hd.1⟩
  refine ⟨hmem, fun hna => ?_, ?_, fun hreg st' hok => ?_⟩
  · obtain ⟨-, g2, -, -⟩ := run_iter_world env st w k
    rw [g2]
    simp [ensure_archive, hna]
  · intro hcon
    exact ((hmem env.archive).1 hcon).2 rfl
  · obtain ⟨cs, hcs⟩ := run_iter_ok_shape env st w k st' hok
    rw [hcs]
    intro hcon
    rcases Finset.mem_sdiff.1 hcon with ⟨hu, -⟩
    rcases Finset.mem_union.1 hu with h | h
    · exact hreg h
    · have hns := List.mem_toFinset.1 h
      unfold newly_seen at hns
      exact ((hmem env.archive).1 (List.mem_of_mem_filter hns)).2 rfl

/-- Environment for the C4 witness: listing ["s1", "s2"], archive "A"
absent from the listing. -/
def c4env : Env Unit :=
  ⟨"h", "A", "ct", fun _ => ["s1", "s2"], fun s _ => s, fun _ => true,
   fun s => (s, ∅)⟩

/-- World for the C4 witness: archive directory initially missing. -/
def c4w : World Unit := ⟨"h", some "m", false, none⟩

/-- Witness for C4: in the concrete environment, "s1" is a candidate iff
it is listed and differs from the archive name, and the missing archive
directory exists after the iteration. -/
theorem mastmon_candidate_dirs_spec_witness :
    ("s1" ∈ candidate_dirs c4env.archive (c4env.subdirs 0) ↔
      ("s1" ∈ c4env.subdirs 0 ∧ "s1" ≠ c4env.archive)) ∧
    ((run_iter c4env (MASTmon_init ()) c4w 0).2).archiveExists = true :=
  ⟨(mastmon_candidate_dirs_spec c4env (MASTmon_init ()) c4w 0 (by decide)).1
      "s1",
   (mastmon_candidate_dirs_spec c4env (MASTmon_init ()) c4w 0
      (by decide)).2.1 (by decide)⟩

/-- C5: after a successful iteration, the registered set equals the prior
registered set united with the newly-seen directories, minus the set of
session names the scheduler reported complete in that iteration. -/
theorem mastmon_iteration_registered_set {S : Type} (env : Env S)
    (st : DaemonState S) (w : World S) (k : Nat)
    (hok : ∀ d ∈ newly_seen env.archive (env.subdirs k) st.registered,
      env.addjobsOk d = true) :
    (run_iter env st w k).1 =
      .ok { registered :=
              (st.registered ∪
                (newly_seen env.archive (env.subdirs k) st.registered).toFinset) \
                (env.schedRun
                  ((newly_seen env.archive (env.subdirs k) st.registered).foldl
                    env.addjobs st.scheduler)).2,
            scheduler :=
              (env.schedRun
                ((newly_seen env.archive (env.subdirs k) st.registered).foldl
                  env.addjobs st.scheduler)).1,
            version := st.version } := by
  have h := add_sessions_ok env st
    (newly_seen env.archive (env.subdirs k) st.registered)
    {w with archiveExists := ensure_archive env.archive (env.subdirs k) w.archiveExists}
    hok
  rcases hE : add_sessions env st
      (newly_seen env.archive (env.subdirs k) st.registered)
      {w with archiveExists := ensure_archive env.archive (env.subdirs k) w.archiveExists}
    with ⟨res, w'⟩
  rw [hE] at h
  simp only at h
  subst h
  simp [run_iter, hE]

/-- Environment for the C5 witness: listing ["s1", "A"], archive "A", a
scheduler tick that reports session "s0" complete. -/
def c5env : Env Unit :=
  ⟨"h", "A", "ct", fun _ => ["s1", "A"], fun s _ => s, fun _ => true,
   fun s => (s, {"s0"})⟩

/-- Daemon state for the C5 witness: session "s0" already registered. -/
def c5st : DaemonState Unit := ⟨{"s0"}, (), mkRat 1 10⟩

/-- World for the C5 witness. -/
def c5w : World Unit := ⟨"h", some "m", true, none⟩

/-- Witness for C5 at the concrete iteration: the registered set becomes
({"s0"} ∪ {"s1"}) \ {"s0"}. -/
theorem mastmon_iteration_registered_set_witness :
    (run_iter c5env c5st c5w 0).1 =
      .ok { registered :=
              (c5st.registered ∪
                (newly_seen c5env.archive (c5env.subdirs 0) c5st.registered).toFinset) \
                (c5env.schedRun
                  ((newly_seen c5env.archive (c5env.subdirs 0) c5st.registered).foldl
                    c5env.addjobs c5st.scheduler)).2,
            scheduler :=
              (c5env.schedRun
                ((newly_seen c5env.archive (c5env.subdirs 0) c5st.registered).foldl
                  c5env.addjobs c5st.scheduler)).1,
            version := c5st.version } :=
  mastmon_iteration_registered_set c5env c5st c5w 0 (by decide)

/-- C8: every successful iteration ends by persisting a snapshot bundle
holding exactly the three fields registered_dir, scheduler and version of
the state at the end of that iteration, and `_save` overwrites whatever
snapshot was previously stored. -/
theorem mastmon_iteration_saves_snapshot {S : Type} (env : Env S)
    (st : DaemonState S) (w : World S) (k : Nat) (st' : DaemonState S)
    (h : (run_iter env st w k).1 = .ok st') :
    ((run_iter env st w k).2).snapshot =
      some ⟨some st'.registered, some st'.scheduler, some st'.version⟩ ∧
    ∀ (st0 : DaemonState S) (prior : Option (SnapshotBundle S)),
      mastmon_save st0 prior =
        some ⟨some st0.registered, some st0.scheduler, some st0.version⟩ :=
  ⟨run_iter_save env st w k st' h, fun _ _ => rfl⟩

/-- Environment for the C8 witness. -/
def c8env : Env Unit :=
  ⟨"h", "A", "ct", fun _ => [], fun s _ => s, fun _ => true, fun s => (s, ∅)⟩

/-- World for the C8 witness, with a prior snapshot that gets
overwritten. -/
def c8w : World Unit := ⟨"h", some "m", true, some ⟨some {"old"}, none, none⟩⟩

/-- Witness for C8: after the concrete iteration the stored snapshot is
built from the final state's three attributes. -/
theorem mastmon_iteration_saves_snapshot_witness :
    ((run_iter c8env (MASTmon_init ()) c8w 0).2).snapshot =
      some ⟨some (MASTmon_init () : DaemonState Unit).registered,
            some (MASTmon_init () : DaemonState Unit).scheduler,
            some (MASTmon_init () : DaemonState Unit).version⟩ :=
  (mastmon_iteration_saves_snapshot c8env (MASTmon_init ()) c8w 0
    (MASTmon_init ()) (by rfl)).1

